import Mathlib

/-!
Verification of the IPO calendar script (`321.py`).

The script queries an external provider (the OpenBB SDK) for upcoming and
historical IPO records, reshapes each response into a fixed-column pandas
DataFrame, sorts it, and prints it.  We embed the pandas fragment the script
uses (column selection, column relabeling, `sort_values`, `reset_index`,
`empty`) over a shallow DataFrame model, embed the two query functions
`get_upcoming_ipos` / `get_past_ipos` and the `__main__` driver, and prove the
specification's properties about them.

The provider call itself is external; each query takes the provider's outcome
as a parameter: either a raised failure (`Except.error`) or a response table
(`Except.ok`).  Dates are encoded as integers in `YYYYMMDD` form, which
preserves chronological order.
-/

/-- A cell value: either a string or a number (dates are numbers in
`YYYYMMDD` form, so numeric order is chronological order). -/
inductive Val where
  | str : String → Val
  | int : Int → Val
deriving DecidableEq, Repr

/-- Lexicographic comparison of strings as character lists (characters by
code point), used to make `Val.le` total on string cells. -/
def strLe : List Char → List Char → Bool
  | [], _ => true
  | _ :: _, [] => false
  | c :: cs, d :: ds => if c = d then strLe cs ds else decide (c < d)

/-- Ordering on cell values, as pandas compares them when sorting a column:
numbers by numeric order, strings lexicographically.  (The script only ever
sorts date columns, whose cells are numbers.) -/
def Val.le : Val → Val → Bool
  | .str a, .str b => strLe a.data b.data
  | .str _, .int _ => true
  | .int _, .str _ => false
  | .int a, .int b => decide (a ≤ b)

/-- The DataFrame model: a list of column names and a list of rows, each row
carrying its index label (pandas keeps the index attached to the row through
`sort_values`) and its cells, aligned with `columns`. -/
structure DataFrame where
  columns : List String
  rows : List (Nat × List Val)
deriving DecidableEq, Repr

/-- Model of `pd.DataFrame()`: the freshly constructed empty frame, zero rows and zero
columns. -/
def pdDataFrame : DataFrame := ⟨[], []⟩

/-- Model of `df.empty`: true when either axis has length zero. -/
def DataFrame.empty (df : DataFrame) : Bool :=
  df.rows.isEmpty || df.columns.isEmpty

/-- Model of `df[[c1, …, cn]]`: project to the named columns, in the given order.
pandas raises `KeyError` when a name is absent; that is the `none` case. -/
def DataFrame.select (df : DataFrame) (cols : List String) : Option DataFrame :=
  (cols.mapM (fun c => df.columns.findIdx? (fun c2 => c2 == c))).map (fun idxs =>
    { columns := cols,
      rows := df.rows.map (fun r => (r.1, idxs.map (fun i => r.2.getD i (Val.str "")))) })

/-- Model of `df.columns = labels`: relabel the columns in place. -/
def DataFrame.setColumns (df : DataFrame) (labels : List String) : DataFrame :=
  { df with columns := labels }

/-- Insertion of one element into a list ordered by `le`. -/
def insertBy (le : α → α → Bool) (x : α) : List α → List α
  | [] => [x]
  | y :: ys => if le x y then x :: y :: ys else y :: insertBy le x ys

/-- Sorting by repeated insertion; used to model `sort_values`. -/
def sortBy (le : α → α → Bool) : List α → List α
  | [] => []
  | x :: xs => insertBy le x (sortBy le xs)

/-- The cell of a row at column position `i`. -/
def cellAt (i : Nat) (r : Nat × List Val) : Val :=
  r.2.getD i (Val.str "")

/-- The row comparator `sort_values` uses: compare the cells at column
position `i`, in the requested direction. -/
def rowLe (i : Nat) (ascending : Bool) (r1 r2 : Nat × List Val) : Bool :=
  match ascending with
  | true => Val.le (cellAt i r1) (cellAt i r2)
  | false => Val.le (cellAt i r2) (cellAt i r1)

/-- Model of `df.sort_values(by=c, ascending=asc)`: sort the rows by the cells of
column `c`; the index labels travel with their rows.  pandas raises `KeyError`
when `c` is absent; that is the `none` case. -/
def DataFrame.sort_values (df : DataFrame) (c : String) (ascending : Bool) : Option DataFrame :=
  match df.columns.findIdx? (fun c2 => c2 == c) with
  | none => none
  | some i =>
    some { columns := df.columns, rows := sortBy (rowLe i ascending) df.rows }

/-- Model of `df.reset_index(drop=True)`: replace the index labels by `0, 1, …, n-1`
in row order. -/
def DataFrame.reset_index (df : DataFrame) : DataFrame :=
  { df with rows := df.rows.enum.map (fun p => (p.1, p.2.2)) }

/-- A console line produced by the script: a status banner, an informational
notice, an error report, or a rendered table. -/
inductive Msg where
  | status : String → Msg
  | info : String → Msg
  | error : String → Msg
  | table : DataFrame → Msg
deriving DecidableEq, Repr

/-- What a query call yields: the returned DataFrame and the console lines it
printed, in order. -/
structure QueryResult where
  df : DataFrame
  msgs : List Msg
deriving DecidableEq, Repr

/-- The provider field names selected for upcoming IPOs (line 34). -/
def upcomingFields : List String :=
  ["name", "expected_date", "expected_shares_offered", "price_low", "price_high", "exchange"]

/-- The display labels assigned for upcoming IPOs (line 35). -/
def upcomingLabels : List String :=
  ["Company Name", "Expected Date", "Shares Offered (M)", "Price Low ($)", "Price High ($)", "Exchange"]

/-- The provider field names selected for past IPOs (line 67). -/
def pastFields : List String := ["name", "date", "price", "exchange"]

/-- The display labels assigned for past IPOs (line 68). -/
def pastLabels : List String := ["Company Name", "IPO Date", "IPO Price ($)", "Exchange"]

/-- Embedding of `get_upcoming_ipos(limit)`, given the provider outcome `resp`
(`Except.error e` models any exception raised by the provider call or the
conversion to a DataFrame; a failing column selection models `KeyError`,
caught by the same handler). -/
def get_upcoming_ipos (limit : Nat) (resp : Except String DataFrame) : QueryResult :=
  let banner := Msg.status ("--- Fetching the next " ++ toString limit ++ " Upcoming IPOs... ---")
  let err1 := Msg.error "ERROR: Could not fetch upcoming IPO data."
  match resp with
  | .error e =>
    ⟨pdDataFrame,
     [banner, err1,
      Msg.error ("Please ensure the openbb library is installed and initialized correctly. Details: " ++ e)]⟩
  | .ok df =>
    if df.empty then
      ⟨df, [banner, Msg.info "No upcoming IPOs found for the specified limit."]⟩
    else
      match (df.select upcomingFields).map (fun d => d.setColumns upcomingLabels) with
      | none =>
        ⟨pdDataFrame,
         [banner, err1,
          Msg.error "Please ensure the openbb library is installed and initialized correctly. Details: KeyError"]⟩
      | some d2 =>
        match d2.sort_values "Expected Date" true with
        | none =>
          ⟨pdDataFrame,
           [banner, err1,
            Msg.error "Please ensure the openbb library is installed and initialized correctly. Details: KeyError"]⟩
        | some d3 => ⟨d3.reset_index, [banner]⟩

/-- Embedding of `get_past_ipos(limit)`, given the provider outcome `resp`. -/
def get_past_ipos (limit : Nat) (resp : Except String DataFrame) : QueryResult :=
  let banner := Msg.status ("\n--- Fetching the last " ++ toString limit ++ " Recent Past IPOs... ---")
  let err1 := Msg.error "ERROR: Could not fetch past IPO data."
  match resp with
  | .error e =>
    ⟨pdDataFrame,
     [banner, err1,
      Msg.error ("Please ensure the openbb library is installed and initialized correctly. Details: " ++ e)]⟩
  | .ok df =>
    if df.empty then
      ⟨df, [banner, Msg.info "No recent past IPOs found for the specified limit."]⟩
    else
      match (df.select pastFields).map (fun d => d.setColumns pastLabels) with
      | none =>
        ⟨pdDataFrame,
         [banner, err1,
          Msg.error "Please ensure the openbb library is installed and initialized correctly. Details: KeyError"]⟩
      | some d2 =>
        match d2.sort_values "IPO Date" false with
        | none =>
          ⟨pdDataFrame,
           [banner, err1,
            Msg.error "Please ensure the openbb library is installed and initialized correctly. Details: KeyError"]⟩
        | some d3 => ⟨d3.reset_index, [banner]⟩

/-- The provider as the driver sees it: the outcome of the one-time
`log_system_info` hook and of the two fetch calls with `limit=10`. -/
structure Provider where
  logSystemInfo : Except String Unit
  upcoming : Except String DataFrame
  historical : Except String DataFrame

/-- The separator banner `"=" * 70`. -/
def sep70 : String := String.mk (List.replicate 70 (Char.ofNat 61))

/-- The driver's display step for one query: print the titled table when the
result is non-empty, nothing otherwise. -/
def displayBlock (title : String) (df : DataFrame) : List Msg :=
  if df.empty then []
  else [Msg.status ("\n" ++ sep70), Msg.status title, Msg.table df, Msg.status sep70]

/-- The `__main__` driver: best-effort `log_system_info` with any failure
swallowed silently, both queries at `limit=10`, each printed when non-empty,
then the completion notice; the value paired with the console lines is the
process exit code. -/
def mainRun (p : Provider) : List Msg × Nat :=
  let initMsgs : List Msg :=
    match p.logSystemInfo with
    | .ok _ => []
    | .error _ => []
  let u := get_upcoming_ipos 10 p.upcoming
  let pa := get_past_ipos 10 p.historical
  (initMsgs ++ u.msgs ++ displayBlock "Upcoming IPOs:" u.df
    ++ pa.msgs ++ displayBlock "Recent Past IPOs:" pa.df
    ++ [Msg.status "\nScript Finished."], 0)

/-! ### Example provider responses (used as concrete witnesses) -/

/-- A provider response of 3 upcoming-IPO rows with unsorted expected dates
`[2025-03-01, 2025-01-15, 2025-02-10]`, all required fields present (plus an
extra `symbol` field, as the provider may return more than is selected). -/
def upcomingExample : DataFrame :=
  { columns := ["name", "expected_date", "expected_shares_offered", "price_low", "price_high", "exchange", "symbol"],
    rows := [(0, [Val.str "Alpha", Val.int 20250301, Val.int 5, Val.int 10, Val.int 12, Val.str "NASDAQ", Val.str "ALP"]),
             (1, [Val.str "Beta", Val.int 20250115, Val.int 8, Val.int 14, Val.int 16, Val.str "NYSE", Val.str "BET"]),
             (2, [Val.str "Gamma", Val.int 20250210, Val.int 3, Val.int 9, Val.int 11, Val.str "NASDAQ", Val.str "GAM"])] }

/-- The frame `upcomingExample` projected to the six selected fields. -/
def upcomingProjected : DataFrame :=
  { columns := upcomingFields,
    rows := [(0, [Val.str "Alpha", Val.int 20250301, Val.int 5, Val.int 10, Val.int 12, Val.str "NASDAQ"]),
             (1, [Val.str "Beta", Val.int 20250115, Val.int 8, Val.int 14, Val.int 16, Val.str "NYSE"]),
             (2, [Val.str "Gamma", Val.int 20250210, Val.int 3, Val.int 9, Val.int 11, Val.str "NASDAQ"])] }

/-- A provider response of 2 past-IPO rows with dates
`[2024-01-01, 2024-06-01]`, all required fields present. -/
def pastExample : DataFrame :=
  { columns := ["symbol", "name", "date", "price", "exchange"],
    rows := [(0, [Val.str "OLD", Val.str "OldCo", Val.int 20240101, Val.int 20, Val.str "NYSE"]),
             (1, [Val.str "NEW", Val.str "NewCo", Val.int 20240601, Val.int 25, Val.str "NASDAQ"])] }

/-- The frame `pastExample` projected to the four selected fields. -/
def pastProjected : DataFrame :=
  { columns := pastFields,
    rows := [(0, [Val.str "OldCo", Val.int 20240101, Val.int 20, Val.str "NYSE"]),
             (1, [Val.str "NewCo", Val.int 20240601, Val.int 25, Val.str "NASDAQ"])] }

/-- A successful provider response with zero rows that still carries the
provider's column headers. -/
def zeroRowUpcoming : DataFrame :=
  { columns := ["name", "expected_date", "expected_shares_offered", "price_low", "price_high", "exchange", "symbol"],
    rows := [] }

/-! ### Order lemmas for the sorting comparator -/

theorem strLe_total : ∀ a b : List Char, (strLe a b || strLe b a) = true := by
  intro a
  induction a with
  | nil => intro b; simp [strLe]
  | cons c cs ih =>
    intro b
    cases b with
    | nil => simp [strLe]
    | cons d ds =>
      simp only [strLe]
      by_cases hcd : c = d
      · have hdc : d = c := hcd.symm
        rw [if_pos hcd, if_pos hdc]
        subst hcd
        exact ih ds
      · have hdc : ¬ d = c := fun h => hcd h.symm
        rw [if_neg hcd, if_neg hdc]
        rcases Ne.lt_or_lt hcd with h | h
        · simp [h]
        · simp [h]

theorem Val.le_total (a b : Val) : (Val.le a b || Val.le b a) = true := by
  cases a with
  | str s =>
    cases b with
    | str t => simpa [Val.le] using strLe_total s.data t.data
    | int n => simp [Val.le]
  | int m =>
    cases b with
    | str t => simp [Val.le]
    | int n =>
      simp only [Val.le]
      rcases Int.le_total m n with h | h
      · simp [h]
      · simp [h]

theorem rowLe_total (i : Nat) (asc : Bool) (r1 r2 : Nat × List Val) :
    (rowLe i asc r1 r2 || rowLe i asc r2 r1) = true := by
  cases asc with
  | true => exact Val.le_total (cellAt i r1) (cellAt i r2)
  | false => exact Val.le_total (cellAt i r2) (cellAt i r1)

/-! ### Sortedness and permutation for `sortBy` -/

theorem insertBy_perm (le : α → α → Bool) (x : α) (l : List α) :
    (insertBy le x l).Perm (x :: l) := by
  induction l with
  | nil => simp [insertBy]
  | cons y ys ih =>
    simp only [insertBy]
    split
    · exact List.Perm.refl _
    · exact (List.Perm.cons y ih).trans (List.Perm.swap x y ys)

theorem sortBy_perm (le : α → α → Bool) (l : List α) : (sortBy le l).Perm l := by
  induction l with
  | nil => simp [sortBy]
  | cons x xs ih =>
    exact (insertBy_perm le x (sortBy le xs)).trans (List.Perm.cons x ih)

theorem insertBy_head? (le : α → α → Bool) (x : α) (l : List α) :
    (insertBy le x l).head? = some x ∨ (insertBy le x l).head? = l.head? := by
  cases l with
  | nil => left; rfl
  | cons y ys =>
    simp only [insertBy]
    split
    · left; rfl
    · right; rfl

theorem chain'_insertBy (le : α → α → Bool) (hT : ∀ a b, (le a b || le b a) = true)
    (x : α) (l : List α) (h : List.Chain' (fun a b => le a b = true) l) :
    List.Chain' (fun a b => le a b = true) (insertBy le x l) := by
  induction l with
  | nil => simp [insertBy]
  | cons y ys ih =>
    simp only [insertBy]
    split
    case isTrue hxy => exact List.chain'_cons.mpr ⟨hxy, h⟩
    case isFalse hxy =>
      have hyx : le y x = true := by
        have h2 := hT x y
        cases h3 : le x y with
        | true => exact absurd h3 hxy
        | false => simpa [h3] using h2
      rw [List.chain'_cons'] at h
      refine List.chain'_cons'.mpr ⟨?_, ih h.2⟩
      intro b hb
      rcases insertBy_head? le x ys with h4 | h4
      · rw [h4, Option.mem_def, Option.some_inj] at hb
        subst hb
        exact hyx
      · rw [h4] at hb
        exact h.1 b hb

theorem chain'_sortBy (le : α → α → Bool) (hT : ∀ a b, (le a b || le b a) = true)
    (l : List α) : List.Chain' (fun a b => le a b = true) (sortBy le l) := by
  induction l with
  | nil => simp [sortBy]
  | cons x xs ih => exact chain'_insertBy le hT x (sortBy le xs) ih

/-! ### Equations for the query paths -/

theorem upcoming_findIdx :
    List.findIdx? (fun c2 => c2 == "Expected Date") upcomingLabels = some 1 := rfl

theorem past_findIdx :
    List.findIdx? (fun c2 => c2 == "IPO Date") pastLabels = some 1 := rfl

theorem select_columns {df d : DataFrame} {cols : List String}
    (h : df.select cols = some d) : d.columns = cols := by
  unfold DataFrame.select at h
  rcases Option.map_eq_some'.mp h with ⟨idxs, hm, rfl⟩
  rfl

theorem select_rows_length {df d : DataFrame} {cols : List String}
    (h : df.select cols = some d) : d.rows.length = df.rows.length := by
  unfold DataFrame.select at h
  rcases Option.map_eq_some'.mp h with ⟨idxs, hm, rfl⟩
  simp

theorem get_upcoming_ipos_ok_eq {df d1 : DataFrame} (limit : Nat)
    (h1 : df.empty = false) (h2 : df.select upcomingFields = some d1) :
    get_upcoming_ipos limit (Except.ok df) =
      ⟨DataFrame.reset_index { columns := upcomingLabels, rows := sortBy (rowLe 1 true) d1.rows },
       [Msg.status ("--- Fetching the next " ++ toString limit ++ " Upcoming IPOs... ---")]⟩ := by
  simp only [get_upcoming_ipos, h1, h2, Option.map_some', DataFrame.setColumns,
    DataFrame.sort_values, upcoming_findIdx, Bool.false_eq_true, if_false]

theorem get_past_ipos_ok_eq {df d1 : DataFrame} (limit : Nat)
    (h1 : df.empty = false) (h2 : df.select pastFields = some d1) :
    get_past_ipos limit (Except.ok df) =
      ⟨DataFrame.reset_index { columns := pastLabels, rows := sortBy (rowLe 1 false) d1.rows },
       [Msg.status ("\n--- Fetching the last " ++ toString limit ++ " Recent Past IPOs... ---")]⟩ := by
  simp only [get_past_ipos, h1, h2, Option.map_some', DataFrame.setColumns,
    DataFrame.sort_values, past_findIdx, Bool.false_eq_true, if_false]

theorem get_upcoming_ipos_error_eq (limit : Nat) (e : String) :
    get_upcoming_ipos limit (Except.error e) =
      ⟨pdDataFrame,
       [Msg.status ("--- Fetching the next " ++ toString limit ++ " Upcoming IPOs... ---"),
        Msg.error "ERROR: Could not fetch upcoming IPO data.",
        Msg.error ("Please ensure the openbb library is installed and initialized correctly. Details: " ++ e)]⟩ := rfl

theorem get_past_ipos_error_eq (limit : Nat) (e : String) :
    get_past_ipos limit (Except.error e) =
      ⟨pdDataFrame,
       [Msg.status ("\n--- Fetching the last " ++ toString limit ++ " Recent Past IPOs... ---"),
        Msg.error "ERROR: Could not fetch past IPO data.",
        Msg.error ("Please ensure the openbb library is installed and initialized correctly. Details: " ++ e)]⟩ := rfl

theorem get_upcoming_ipos_keyerror_eq {df : DataFrame} (limit : Nat)
    (h1 : df.empty = false) (h2 : df.select upcomingFields = none) :
    get_upcoming_ipos limit (Except.ok df) =
      ⟨pdDataFrame,
       [Msg.status ("--- Fetching the next " ++ toString limit ++ " Upcoming IPOs... ---"),
        Msg.error "ERROR: Could not fetch upcoming IPO data.",
        Msg.error "Please ensure the openbb library is installed and initialized correctly. Details: KeyError"]⟩ := by
  simp only [get_upcoming_ipos, h1, h2, Option.map_none', Bool.false_eq_true, if_false]

theorem get_past_ipos_keyerror_eq {df : DataFrame} (limit : Nat)
    (h1 : df.empty = false) (h2 : df.select pastFields = none) :
    get_past_ipos limit (Except.ok df) =
      ⟨pdDataFrame,
       [Msg.status ("\n--- Fetching the last " ++ toString limit ++ " Recent Past IPOs... ---"),
        Msg.error "ERROR: Could not fetch past IPO data.",
        Msg.error "Please ensure the openbb library is installed and initialized correctly. Details: KeyError"]⟩ := by
  simp only [get_past_ipos, h1, h2, Option.map_none', Bool.false_eq_true, if_false]

theorem empty_of_rows_nil {df : DataFrame} (h : df.rows = []) : df.empty = true := by
  simp [DataFrame.empty, h]

theorem get_upcoming_ipos_empty_eq {df : DataFrame} (limit : Nat) (h : df.empty = true) :
    get_upcoming_ipos limit (Except.ok df) =
      ⟨df, [Msg.status ("--- Fetching the next " ++ toString limit ++ " Upcoming IPOs... ---"),
            Msg.info "No upcoming IPOs found for the specified limit."]⟩ := by
  simp only [get_upcoming_ipos, h, if_true]

theorem get_past_ipos_empty_eq {df : DataFrame} (limit : Nat) (h : df.empty = true) :
    get_past_ipos limit (Except.ok df) =
      ⟨df, [Msg.status ("\n--- Fetching the last " ++ toString limit ++ " Recent Past IPOs... ---"),
            Msg.info "No recent past IPOs found for the specified limit."]⟩ := by
  simp only [get_past_ipos, h, if_true]

/-! ### `reset_index` lemmas -/

theorem reset_index_columns (df : DataFrame) : df.reset_index.columns = df.columns := rfl

theorem reset_index_rows_snd (df : DataFrame) :
    df.reset_index.rows.map Prod.snd = df.rows.map Prod.snd := by
  show (df.rows.enum.map (fun p => (p.1, p.2.2))).map Prod.snd = df.rows.map Prod.snd
  rw [List.map_map]
  have h2 : (Prod.snd ∘ fun p : Nat × (Nat × List Val) => (p.1, p.2.2))
      = (Prod.snd ∘ (Prod.snd : Nat × (Nat × List Val) → Nat × List Val)) := rfl
  rw [h2, ← List.map_map, List.enum_map_snd]

theorem reset_index_length (df : DataFrame) :
    df.reset_index.rows.length = df.rows.length := by
  show (df.rows.enum.map _).length = _
  rw [List.length_map, List.enum_length]

theorem reset_index_fresh (df : DataFrame) :
    df.reset_index.rows.map Prod.fst = List.range df.reset_index.rows.length := by
  rw [reset_index_length]
  show (df.rows.enum.map (fun p => (p.1, p.2.2))).map Prod.fst = List.range df.rows.length
  rw [List.map_map]
  have h2 : (Prod.fst ∘ fun p : Nat × (Nat × List Val) => (p.1, p.2.2))
      = (Prod.fst : Nat × (Nat × List Val) → Nat) := rfl
  rw [h2, List.enum_map_fst]

theorem chain'_reset_index (df : DataFrame) (R : List Val → List Val → Prop)
    (h : List.Chain' (fun a b : Nat × List Val => R a.2 b.2) df.rows) :
    List.Chain' (fun a b : Nat × List Val => R a.2 b.2) df.reset_index.rows := by
  have h1 : List.Chain' R (df.rows.map Prod.snd) := (List.chain'_map Prod.snd).mpr h
  have h2 : List.Chain' R (df.reset_index.rows.map Prod.snd) := by
    rw [reset_index_rows_snd]
    exact h1
  exact (List.chain'_map Prod.snd).mp h2

/-! ### Driver lemmas -/

theorem past_banner_mem (limit : Nat) (resp : Except String DataFrame) :
    Msg.status ("\n--- Fetching the last " ++ toString limit ++ " Recent Past IPOs... ---") ∈
      (get_past_ipos limit resp).msgs := by
  unfold get_past_ipos
  cases resp with
  | error e => simp
  | ok df =>
    by_cases h : df.empty = true
    · simp [h]
    · rw [Bool.not_eq_true] at h
      simp only [h, Bool.false_eq_true, if_false]
      split
      · simp
      · split
        · simp
        · simp

theorem mainRun_exit (p : Provider) : (mainRun p).2 = 0 := rfl

theorem mainRun_finished (p : Provider) :
    Msg.status "\nScript Finished." ∈ (mainRun p).1 := by
  unfold mainRun
  cases p.logSystemInfo <;> simp

theorem mainRun_past_banner (p : Provider) :
    Msg.status ("\n--- Fetching the last " ++ toString (10 : Nat) ++ " Recent Past IPOs... ---") ∈
      (mainRun p).1 := by
  have h := past_banner_mem 10 p.historical
  unfold mainRun
  cases p.logSystemInfo <;> simp only [List.nil_append, List.append_assoc, List.mem_append] <;> tauto

/-- A provider response that is non-empty but lacks the expected columns: a
schema mismatch, which `df[[...]]` turns into a `KeyError`. -/
def badDf : DataFrame := { columns := ["name"], rows := [(0, [Val.str "X"])] }

/-! ### The claims -/

/-- Claim C1: for every provider response with at least one row containing the
required fields, the upcoming query returns a table whose columns are exactly
the six display labels in order and no others, and the past query returns a
table whose columns are exactly the four display labels in order and no
others. -/
theorem claim_C1_columns_exact (limit : Nat) (df1 df2 : DataFrame)
    (h1 : df1.empty = false) (h2 : (df1.select upcomingFields).isSome = true)
    (h3 : df2.empty = false) (h4 : (df2.select pastFields).isSome = true) :
    (get_upcoming_ipos limit (Except.ok df1)).df.columns = upcomingLabels ∧
    (get_past_ipos limit (Except.ok df2)).df.columns = pastLabels := by
  rcases Option.isSome_iff_exists.mp h2 with ⟨d1, hd1⟩
  rcases Option.isSome_iff_exists.mp h4 with ⟨d2, hd2⟩
  rw [get_upcoming_ipos_ok_eq limit h1 hd1, get_past_ipos_ok_eq limit h3 hd2]
  exact ⟨rfl, rfl⟩

theorem claim_C1_witness :
    (get_upcoming_ipos 10 (Except.ok upcomingExample)).df.columns = upcomingLabels ∧
    (get_past_ipos 10 (Except.ok pastExample)).df.columns = pastLabels :=
  claim_C1_columns_exact 10 upcomingExample pastExample
    (by decide) (by decide) (by decide) (by decide)

/-- Claim C2: for every non-empty provider response containing the required
fields, the rows returned by the upcoming query are non-decreasing in the
cell of column position 1, which is the "Expected Date" column. -/
theorem claim_C2_upcoming_sorted (limit : Nat) (df : DataFrame)
    (h1 : df.empty = false) (h2 : (df.select upcomingFields).isSome = true) :
    List.Chain' (fun r1 r2 => Val.le (cellAt 1 r1) (cellAt 1 r2) = true)
      (get_upcoming_ipos limit (Except.ok df)).df.rows := by
  rcases Option.isSome_iff_exists.mp h2 with ⟨d1, hd1⟩
  rw [get_upcoming_ipos_ok_eq limit h1 hd1]
  have hs : List.Chain' (fun a b => rowLe 1 true a b = true)
      (sortBy (rowLe 1 true) d1.rows) :=
    chain'_sortBy (rowLe 1 true) (rowLe_total 1 true) d1.rows
  exact chain'_reset_index
    { columns := upcomingLabels, rows := sortBy (rowLe 1 true) d1.rows }
    (fun a b => Val.le (a.getD 1 (Val.str "")) (b.getD 1 (Val.str "")) = true) hs

theorem claim_C2_witness :
    List.Chain' (fun r1 r2 => Val.le (cellAt 1 r1) (cellAt 1 r2) = true)
      (get_upcoming_ipos 10 (Except.ok upcomingExample)).df.rows :=
  claim_C2_upcoming_sorted 10 upcomingExample (by decide) (by decide)

/-- Claim C3: for every non-empty provider response containing the required
fields, the rows returned by the past query are non-increasing in the cell of
column position 1, which is the "IPO Date" column; in particular, on the
two-row response with dates `[2024-01-01, 2024-06-01]` the query at limit 10
returns them ordered `[2024-06-01, 2024-01-01]`. -/
theorem claim_C3_past_sorted (limit : Nat) (df : DataFrame)
    (h1 : df.empty = false) (h2 : (df.select pastFields).isSome = true) :
    List.Chain' (fun r1 r2 => Val.le (cellAt 1 r2) (cellAt 1 r1) = true)
      (get_past_ipos limit (Except.ok df)).df.rows ∧
    (get_past_ipos 10 (Except.ok pastExample)).df.rows =
      [(0, [Val.str "NewCo", Val.int 20240601, Val.int 25, Val.str "NASDAQ"]),
       (1, [Val.str "OldCo", Val.int 20240101, Val.int 20, Val.str "NYSE"])] := by
  constructor
  · rcases Option.isSome_iff_exists.mp h2 with ⟨d1, hd1⟩
    rw [get_past_ipos_ok_eq limit h1 hd1]
    have hs : List.Chain' (fun a b => rowLe 1 false a b = true)
        (sortBy (rowLe 1 false) d1.rows) :=
      chain'_sortBy (rowLe 1 false) (rowLe_total 1 false) d1.rows
    exact chain'_reset_index
      { columns := pastLabels, rows := sortBy (rowLe 1 false) d1.rows }
      (fun a b => Val.le (b.getD 1 (Val.str "")) (a.getD 1 (Val.str "")) = true) hs
  · decide

theorem claim_C3_witness :
    List.Chain' (fun r1 r2 => Val.le (cellAt 1 r2) (cellAt 1 r1) = true)
      (get_past_ipos 10 (Except.ok pastExample)).df.rows ∧
    (get_past_ipos 10 (Except.ok pastExample)).df.rows =
      [(0, [Val.str "NewCo", Val.int 20240601, Val.int 25, Val.str "NASDAQ"]),
       (1, [Val.str "OldCo", Val.int 20240101, Val.int 20, Val.str "NYSE"])] :=
  claim_C3_past_sorted 10 pastExample (by decide) (by decide)

/-- Claim C4: every failure of the provider call (a raised exception, or a
schema mismatch that makes the column selection fail) is caught: the query
returns the freshly constructed empty frame and prints an error line; the
failure never reaches the driver, which still runs the second query, prints
the completion notice, and exits with code 0. -/
theorem claim_C4_failure_contained (limit : Nat) (e : String) (dfU dfP : DataFrame)
    (p : Provider)
    (hU1 : dfU.empty = false) (hU2 : dfU.select upcomingFields = none)
    (hP1 : dfP.empty = false) (hP2 : dfP.select pastFields = none) :
    ((get_upcoming_ipos limit (Except.error e)).df = pdDataFrame ∧
      Msg.error "ERROR: Could not fetch upcoming IPO data."
        ∈ (get_upcoming_ipos limit (Except.error e)).msgs) ∧
    ((get_past_ipos limit (Except.error e)).df = pdDataFrame ∧
      Msg.error "ERROR: Could not fetch past IPO data."
        ∈ (get_past_ipos limit (Except.error e)).msgs) ∧
    ((get_upcoming_ipos limit (Except.ok dfU)).df = pdDataFrame ∧
      Msg.error "ERROR: Could not fetch upcoming IPO data."
        ∈ (get_upcoming_ipos limit (Except.ok dfU)).msgs) ∧
    ((get_past_ipos limit (Except.ok dfP)).df = pdDataFrame ∧
      Msg.error "ERROR: Could not fetch past IPO data."
        ∈ (get_past_ipos limit (Except.ok dfP)).msgs) ∧
    (mainRun p).2 = 0 ∧
    Msg.status ("\n--- Fetching the last " ++ toString (10 : Nat) ++ " Recent Past IPOs... ---")
      ∈ (mainRun p).1 ∧
    Msg.status "\nScript Finished." ∈ (mainRun p).1 := by
  refine ⟨?_, ?_, ?_, ?_, mainRun_exit p, mainRun_past_banner p, mainRun_finished p⟩
  · rw [get_upcoming_ipos_error_eq]
    exact ⟨rfl, by simp⟩
  · rw [get_past_ipos_error_eq]
    exact ⟨rfl, by simp⟩
  · rw [get_upcoming_ipos_keyerror_eq limit hU1 hU2]
    exact ⟨rfl, by simp⟩
  · rw [get_past_ipos_keyerror_eq limit hP1 hP2]
    exact ⟨rfl, by simp⟩

/-- A provider whose fetch calls both fail, used to witness C4. -/
def failingProvider : Provider :=
  { logSystemInfo := Except.ok (), upcoming := Except.error "boom",
    historical := Except.error "boom" }

theorem claim_C4_witness :
    ((get_upcoming_ipos 10 (Except.error "boom")).df = pdDataFrame ∧
      Msg.error "ERROR: Could not fetch upcoming IPO data."
        ∈ (get_upcoming_ipos 10 (Except.error "boom")).msgs) ∧
    ((get_past_ipos 10 (Except.error "boom")).df = pdDataFrame ∧
      Msg.error "ERROR: Could not fetch past IPO data."
        ∈ (get_past_ipos 10 (Except.error "boom")).msgs) ∧
    ((get_upcoming_ipos 10 (Except.ok badDf)).df = pdDataFrame ∧
      Msg.error "ERROR: Could not fetch upcoming IPO data."
        ∈ (get_upcoming_ipos 10 (Except.ok badDf)).msgs) ∧
    ((get_past_ipos 10 (Except.ok badDf)).df = pdDataFrame ∧
      Msg.error "ERROR: Could not fetch past IPO data."
        ∈ (get_past_ipos 10 (Except.ok badDf)).msgs) ∧
    (mainRun failingProvider).2 = 0 ∧
    Msg.status ("\n--- Fetching the last " ++ toString (10 : Nat) ++ " Recent Past IPOs... ---")
      ∈ (mainRun failingProvider).1 ∧
    Msg.status "\nScript Finished." ∈ (mainRun failingProvider).1 :=
  claim_C4_failure_contained 10 "boom" badDf badDf failingProvider
    (by decide) (by decide) (by decide) (by decide)

/-- Claim C5: for every provider response with zero rows, each query returns
that frame unchanged, prints an informational line and no error line, and the
driver prints no table for that query. -/
theorem claim_C5_zero_rows (limit : Nat) (df : DataFrame) (h : df.rows = []) :
    (get_upcoming_ipos limit (Except.ok df)).df = df ∧
    Msg.info "No upcoming IPOs found for the specified limit."
      ∈ (get_upcoming_ipos limit (Except.ok df)).msgs ∧
    (∀ s, Msg.error s ∉ (get_upcoming_ipos limit (Except.ok df)).msgs) ∧
    displayBlock "Upcoming IPOs:" (get_upcoming_ipos limit (Except.ok df)).df = [] ∧
    (get_past_ipos limit (Except.ok df)).df = df ∧
    Msg.info "No recent past IPOs found for the specified limit."
      ∈ (get_past_ipos limit (Except.ok df)).msgs ∧
    (∀ s, Msg.error s ∉ (get_past_ipos limit (Except.ok df)).msgs) ∧
    displayBlock "Recent Past IPOs:" (get_past_ipos limit (Except.ok df)).df = [] := by
  have he := empty_of_rows_nil h
  rw [get_upcoming_ipos_empty_eq limit he, get_past_ipos_empty_eq limit he]
  refine ⟨rfl, by simp, ?_, ?_, rfl, by simp, ?_, ?_⟩
  · intro s
    simp
  · simp [displayBlock, he]
  · intro s
    simp
  · simp [displayBlock, he]

theorem claim_C5_witness :
    (get_upcoming_ipos 10 (Except.ok zeroRowUpcoming)).df = zeroRowUpcoming ∧
    Msg.info "No upcoming IPOs found for the specified limit."
      ∈ (get_upcoming_ipos 10 (Except.ok zeroRowUpcoming)).msgs ∧
    (∀ s, Msg.error s ∉ (get_upcoming_ipos 10 (Except.ok zeroRowUpcoming)).msgs) ∧
    displayBlock "Upcoming IPOs:" (get_upcoming_ipos 10 (Except.ok zeroRowUpcoming)).df = [] ∧
    (get_past_ipos 10 (Except.ok zeroRowUpcoming)).df = zeroRowUpcoming ∧
    Msg.info "No recent past IPOs found for the specified limit."
      ∈ (get_past_ipos 10 (Except.ok zeroRowUpcoming)).msgs ∧
    (∀ s, Msg.error s ∉ (get_past_ipos 10 (Except.ok zeroRowUpcoming)).msgs) ∧
    displayBlock "Recent Past IPOs:" (get_past_ipos 10 (Except.ok zeroRowUpcoming)).df = [] :=
  claim_C5_zero_rows 10 zeroRowUpcoming (by decide)

/-- Claim C6: on the 3-row provider response with unsorted expected dates
`[2025-03-01, 2025-01-15, 2025-02-10]` and all required fields present, the
upcoming query at limit 10 returns exactly 3 rows ordered by expected date
`[2025-01-15, 2025-02-10, 2025-03-01]` with exactly the 6 renamed columns. -/
theorem claim_C6_upcoming_example :
    (get_upcoming_ipos 10 (Except.ok upcomingExample)).df =
      { columns := upcomingLabels,
        rows := [(0, [Val.str "Beta", Val.int 20250115, Val.int 8, Val.int 14, Val.int 16, Val.str "NYSE"]),
                 (1, [Val.str "Gamma", Val.int 20250210, Val.int 3, Val.int 9, Val.int 11, Val.str "NASDAQ"]),
                 (2, [Val.str "Alpha", Val.int 20250301, Val.int 5, Val.int 10, Val.int 12, Val.str "NASDAQ"])] } ∧
    (get_upcoming_ipos 10 (Except.ok upcomingExample)).df.rows.length = 3 ∧
    (get_upcoming_ipos 10 (Except.ok upcomingExample)).df.columns.length = 6 := by
  decide

/-- Claim C7: for every non-empty provider response containing the required
fields, the table returned by each query carries a fresh sequential index:
the row index labels are exactly `0, 1, …, n-1` in order. -/
theorem claim_C7_fresh_index (limit : Nat) (df1 df2 : DataFrame)
    (h1 : df1.empty = false) (h2 : (df1.select upcomingFields).isSome = true)
    (h3 : df2.empty = false) (h4 : (df2.select pastFields).isSome = true) :
    (get_upcoming_ipos limit (Except.ok df1)).df.rows.map Prod.fst =
      List.range (get_upcoming_ipos limit (Except.ok df1)).df.rows.length ∧
    (get_past_ipos limit (Except.ok df2)).df.rows.map Prod.fst =
      List.range (get_past_ipos limit (Except.ok df2)).df.rows.length := by
  rcases Option.isSome_iff_exists.mp h2 with ⟨d1, hd1⟩
  rcases Option.isSome_iff_exists.mp h4 with ⟨d2, hd2⟩
  rw [get_upcoming_ipos_ok_eq limit h1 hd1, get_past_ipos_ok_eq limit h3 hd2]
  exact ⟨reset_index_fresh _, reset_index_fresh _⟩

theorem claim_C7_witness :
    (get_upcoming_ipos 10 (Except.ok upcomingExample)).df.rows.map Prod.fst =
      List.range (get_upcoming_ipos 10 (Except.ok upcomingExample)).df.rows.length ∧
    (get_past_ipos 10 (Except.ok pastExample)).df.rows.map Prod.fst =
      List.range (get_past_ipos 10 (Except.ok pastExample)).df.rows.length :=
  claim_C7_fresh_index 10 upcomingExample pastExample
    (by decide) (by decide) (by decide) (by decide)

/-- Claim C8: if the one-time `log_system_info` hook fails, the failure is
swallowed silently and the whole run — both query calls, their results, every
console line, and the exit code — is exactly as if the hook had succeeded. -/
theorem claim_C8_hook_failure_invisible (p : Provider) (e : String) :
    mainRun { p with logSystemInfo := Except.error e }
      = mainRun { p with logSystemInfo := Except.ok () } ∧
    get_upcoming_ipos 10 ({ p with logSystemInfo := Except.error e } : Provider).upcoming
      = get_upcoming_ipos 10 p.upcoming ∧
    get_past_ipos 10 ({ p with logSystemInfo := Except.error e } : Provider).historical
      = get_past_ipos 10 p.historical :=
  ⟨rfl, rfl, rfl⟩

/-- Claim C9: for every non-empty provider response containing the required
fields, the rows each query returns are a permutation of the projected
provider rows (as cell lists, the index labels aside), and the row count
equals the provider's row count. -/
theorem claim_C9_permutation (limit : Nat) (df1 df2 d1 d2 : DataFrame)
    (h1 : df1.empty = false) (hd1 : df1.select upcomingFields = some d1)
    (h3 : df2.empty = false) (hd2 : df2.select pastFields = some d2) :
    ((get_upcoming_ipos limit (Except.ok df1)).df.rows.map Prod.snd).Perm
      (d1.rows.map Prod.snd) ∧
    (get_upcoming_ipos limit (Except.ok df1)).df.rows.length = df1.rows.length ∧
    ((get_past_ipos limit (Except.ok df2)).df.rows.map Prod.snd).Perm
      (d2.rows.map Prod.snd) ∧
    (get_past_ipos limit (Except.ok df2)).df.rows.length = df2.rows.length := by
  rw [get_upcoming_ipos_ok_eq limit h1 hd1, get_past_ipos_ok_eq limit h3 hd2]
  refine ⟨?_, ?_, ?_, ?_⟩
  · rw [reset_index_rows_snd]
    exact (sortBy_perm (rowLe 1 true) d1.rows).map Prod.snd
  · rw [reset_index_length]
    rw [show (({ columns := upcomingLabels, rows := sortBy (rowLe 1 true) d1.rows } : DataFrame)).rows.length
        = d1.rows.length from (sortBy_perm (rowLe 1 true) d1.rows).length_eq]
    exact select_rows_length hd1
  · rw [reset_index_rows_snd]
    exact (sortBy_perm (rowLe 1 false) d2.rows).map Prod.snd
  · rw [reset_index_length]
    rw [show (({ columns := pastLabels, rows := sortBy (rowLe 1 false) d2.rows } : DataFrame)).rows.length
        = d2.rows.length from (sortBy_perm (rowLe 1 false) d2.rows).length_eq]
    exact select_rows_length hd2

theorem claim_C9_witness :
    ((get_upcoming_ipos 10 (Except.ok upcomingExample)).df.rows.map Prod.snd).Perm
      (upcomingProjected.rows.map Prod.snd) ∧
    (get_upcoming_ipos 10 (Except.ok upcomingExample)).df.rows.length
      = upcomingExample.rows.length ∧
    ((get_past_ipos 10 (Except.ok pastExample)).df.rows.map Prod.snd).Perm
      (pastProjected.rows.map Prod.snd) ∧
    (get_past_ipos 10 (Except.ok pastExample)).df.rows.length = pastExample.rows.length :=
  claim_C9_permutation 10 upcomingExample pastExample upcomingProjected pastProjected
    (by decide) (by decide) (by decide) (by decide)

/-- Claim C10: the empty result returned on a provider failure is the freshly
constructed frame with zero rows and zero columns, whereas the empty result
returned for a successful zero-row response is the provider's frame
unchanged, which may still carry the provider's column headers; the two empty
outcomes are therefore distinguishable at the query boundary. -/
theorem claim_C10_empty_outcomes (limit : Nat) (e : String) (df : DataFrame)
    (h : df.rows = []) :
    (get_upcoming_ipos limit (Except.error e)).df = pdDataFrame ∧
    (get_past_ipos limit (Except.error e)).df = pdDataFrame ∧
    pdDataFrame.rows = [] ∧ pdDataFrame.columns = [] ∧
    (get_upcoming_ipos limit (Except.ok df)).df = df ∧
    (get_past_ipos limit (Except.ok df)).df = df ∧
    (get_upcoming_ipos 10 (Except.ok zeroRowUpcoming)).df.columns = zeroRowUpcoming.columns ∧
    zeroRowUpcoming.columns ≠ [] ∧
    (get_upcoming_ipos 10 (Except.ok zeroRowUpcoming)).df
      ≠ (get_upcoming_ipos 10 (Except.error e)).df := by
  have he := empty_of_rows_nil h
  refine ⟨by rw [get_upcoming_ipos_error_eq], by rw [get_past_ipos_error_eq], rfl, rfl,
    by rw [get_upcoming_ipos_empty_eq limit he], by rw [get_past_ipos_empty_eq limit he],
    by decide, by decide, ?_⟩
  rw [show (get_upcoming_ipos 10 (Except.error e)).df = pdDataFrame from
    by rw [get_upcoming_ipos_error_eq]]
  decide

theorem claim_C10_witness :
    (get_upcoming_ipos 10 (Except.error "boom")).df = pdDataFrame ∧
    (get_past_ipos 10 (Except.error "boom")).df = pdDataFrame ∧
    pdDataFrame.rows = [] ∧ pdDataFrame.columns = [] ∧
    (get_upcoming_ipos 10 (Except.ok zeroRowUpcoming)).df = zeroRowUpcoming ∧
    (get_past_ipos 10 (Except.ok zeroRowUpcoming)).df = zeroRowUpcoming ∧
    (get_upcoming_ipos 10 (Except.ok zeroRowUpcoming)).df.columns = zeroRowUpcoming.columns ∧
    zeroRowUpcoming.columns ≠ [] ∧
    (get_upcoming_ipos 10 (Except.ok zeroRowUpcoming)).df
      ≠ (get_upcoming_ipos 10 (Except.error "boom")).df :=
  claim_C10_empty_outcomes 10 "boom" zeroRowUpcoming (by decide)
